import Mathlib

/-!
Shallow embedding of `src/python/main.py` (a FastAPI item-listing service
backed by sqlite3 and a content-addressed image directory).

Modelling conventions:
- Byte strings are `List Nat` (each entry one byte).
- The sqlite database is a `DBState`: the two tables (`categories`,
  `items`) as lists of rows in rowid order, plus the next fresh rowid of
  each table (sqlite assigns `lastrowid` monotonically for these tables).
- The image directory is an `ImageStore`: a map from filename to stored
  bytes (`String → Option (List Nat)`).
- Each request handler becomes a pure function from the committed database
  state (and image store) to the new committed state plus an HTTP outcome
  (`Except HTTPError α`).  The Python handlers use one sqlite connection per
  request: statements accumulate uncommitted until `db.commit()`, and the
  `except Exception` blocks call `db.rollback()` before re-raising, so the
  observable state after a failed request is the state at the last commit.
  The embeddings below therefore return, on each exit path, exactly the
  state that was committed at that point in the source.
- `HTTPException` raised inside a `try` block is itself an `Exception`, so
  the blanket `except Exception` handlers in the source catch it and
  re-raise a fresh 500 error; the embeddings reproduce that re-wrapping.
-/

def MOD32 : Nat := 4294967296

def MAX_FILE_SIZE : Nat := 1048576

/-- ASCII lower-casing of one character, as Python `str.lower` acts on the
ASCII filenames and as sqlite's default `LIKE` folds case. -/
def lowerAscii (c : Char) : Char :=
  if 'A' ≤ c ∧ c ≤ 'Z' then Char.ofNat (c.toNat + 32) else c

/-- Python `str.lower()` restricted to ASCII. -/
def strLower (s : String) : String := ⟨s.data.map lowerAscii⟩

/-- Python `str.endswith(suf)`. -/
def endsWithS (s suf : String) : Bool := List.isSuffixOf suf.data s.data

/-- The extension check shared by `add_item` (line 90) and `update_item`
(line 314): `filename.lower().endswith((".jpg", ".jpeg"))`. -/
def validImageExt (filename : String) : Bool :=
  endsWithS (strLower filename) ".jpg" || endsWithS (strLower filename) ".jpeg"

/-! ### SHA-256 (`hashlib.sha256(...).hexdigest()`)

Implemented from FIPS 180-4.  The round constants are the FIPS-defined
values: fractional parts of the cube roots (resp. square roots) of the
first 64 (resp. 8) primes, computed here with exact integer arithmetic. -/

/-- Big-endian byte expansion: `bytesBE n v` is the `n` low-order bytes of
`v`, most significant first. -/
def bytesBE : Nat → Nat → List Nat
  | 0, _ => []
  | n + 1, v => bytesBE n (v / 256) ++ [v % 256]

/-- Group a byte list into big-endian 32-bit words. -/
def toWords : List Nat → List Nat
  | b0 :: b1 :: b2 :: b3 :: rest =>
      (((b0 * 256 + b1) * 256 + b2) * 256 + b3) :: toWords rest
  | _ => []

/-- 32-bit right rotation. -/
def rotr32 (n x : Nat) : Nat := ((x >>> n) ||| (x <<< (32 - n))) % MOD32

def bigSigma0 (x : Nat) : Nat := (rotr32 2 x) ^^^ (rotr32 13 x) ^^^ (rotr32 22 x)

def bigSigma1 (x : Nat) : Nat := (rotr32 6 x) ^^^ (rotr32 11 x) ^^^ (rotr32 25 x)

def smallSigma0 (x : Nat) : Nat := (rotr32 7 x) ^^^ (rotr32 18 x) ^^^ (x >>> 3)

def smallSigma1 (x : Nat) : Nat := (rotr32 17 x) ^^^ (rotr32 19 x) ^^^ (x >>> 10)

def chFn (x y z : Nat) : Nat := (x &&& y) ^^^ ((x ^^^ (MOD32 - 1)) &&& z)

def majFn (x y z : Nat) : Nat := (x &&& y) ^^^ (x &&& z) ^^^ (y &&& z)

/-- Bisection step for the integer cube root (largest `c` with `c ^ 3 ≤ t`,
maintained as `lo ^ 3 ≤ t < hi ^ 3`). -/
def cbrtAux : Nat → Nat → Nat → Nat → Nat
  | 0, lo, _, _ => lo
  | fuel + 1, lo, hi, t =>
    if hi ≤ lo + 1 then lo
    else
      let mid := (lo + hi) / 2
      if mid ^ 3 ≤ t then cbrtAux fuel mid hi t else cbrtAux fuel lo mid t

/-- Integer cube root (for `t ≥ 1`). -/
def natCbrt (t : Nat) : Nat := cbrtAux 128 1 (t + 2) t

def first64Primes : List Nat :=
  [2, 3, 5, 7, 11, 13, 17, 19, 23, 29, 31, 37, 41, 43, 47, 53,
   59, 61, 67, 71, 73, 79, 83, 89, 97, 101, 103, 107, 109, 113, 127, 131,
   137, 139, 149, 151, 157, 163, 167, 173, 179, 181, 191, 193, 197, 199, 211, 223,
   227, 229, 233, 239, 241, 251, 257, 263, 269, 271, 277, 281, 283, 293, 307, 311]

/-- K constants: first 32 bits of the fractional parts of the cube roots of
the first 64 primes. -/
def sha256K : List Nat := first64Primes.map (fun p => natCbrt (p * 2 ^ 96) % MOD32)

/-- Initial hash value: first 32 bits of the fractional parts of the square
roots of the first 8 primes. -/
def sha256H0 : List Nat := (first64Primes.take 8).map (fun p => Nat.sqrt (p * 2 ^ 64) % MOD32)

/-- One message-schedule extension step: append
`σ1(w[t-2]) + w[t-7] + σ0(w[t-15]) + w[t-16]`. -/
def scheduleStep (w : List Nat) : List Nat :=
  w ++ [(smallSigma1 (w.getD (w.length - 2) 0) + w.getD (w.length - 7) 0 +
         smallSigma0 (w.getD (w.length - 15) 0) + w.getD (w.length - 16) 0) % MOD32]

/-- Extend the 16 block words to the 64-entry message schedule. -/
def schedule (w16 : List Nat) : List Nat :=
  (List.range 48).foldl (fun w _ => scheduleStep w) w16

/-- One compression round on the state `[a,b,c,d,e,f,g,h]`; `kw` is
`K[t] + W[t] (mod 2^32)`. -/
def compressRound (st : List Nat) (kw : Nat) : List Nat :=
  match st with
  | [a, b, c, d, e, f, g, h] =>
      let t1 := (h + bigSigma1 e + chFn e f g + kw) % MOD32
      let t2 := (bigSigma0 a + majFn a b c) % MOD32
      [(t1 + t2) % MOD32, a, b, c, (d + t1) % MOD32, e, f, g]
  | other => other

/-- Process one 64-byte block. -/
def processBlock (h : List Nat) (block : List Nat) : List Nat :=
  let w := schedule (toWords block)
  let kw := (sha256K.zip w).map (fun p => (p.1 + p.2) % MOD32)
  let st := kw.foldl compressRound h
  (h.zip st).map (fun p => (p.1 + p.2) % MOD32)

def chunksAux : Nat → List Nat → List (List Nat)
  | 0, _ => []
  | _, [] => []
  | n + 1, l => l.take 64 :: chunksAux n (l.drop 64)

/-- Split a byte list into 64-byte blocks. -/
def chunks64 (l : List Nat) : List (List Nat) := chunksAux l.length l

/-- SHA-256 padding: `0x80`, zeros to 56 mod 64, then the bit length as an
8-byte big-endian integer. -/
def padMessage (msg : List Nat) : List Nat :=
  msg ++ (128 :: List.replicate ((119 - msg.length % 64) % 64) 0) ++ bytesBE 8 (8 * msg.length)

def hexDigit (n : Nat) : Char := if n < 10 then Char.ofNat (48 + n) else Char.ofNat (87 + n)

/-- Lowercase hex rendering of a 32-bit word, 8 digits. -/
def wordHex (w : Nat) : List Char :=
  [hexDigit ((w >>> 28) % 16), hexDigit ((w >>> 24) % 16),
   hexDigit ((w >>> 20) % 16), hexDigit ((w >>> 16) % 16),
   hexDigit ((w >>> 12) % 16), hexDigit ((w >>> 8) % 16),
   hexDigit ((w >>> 4) % 16), hexDigit (w % 16)]

/-- `hashlib.sha256(bytes).hexdigest()`. -/
def sha256hex (msg : List Nat) : String :=
  ⟨((chunks64 (padMessage msg)).foldl processBlock sha256H0).map wordHex |>.flatten⟩

/-- The content-addressed filename derived at `main.py` lines 104-105 and
321-322: `f"{sha256(bytes).hexdigest()}.jpg"`. -/
def imageFilename (bytes : List Nat) : String := sha256hex bytes ++ ".jpg"

/-! ### Data model -/

/-- A multipart file upload as the handlers see it: `filename`,
`content_type`, and the result of `await image.read()`. -/
structure UploadFile where
  filename : String
  content_type : String
  bytes : List Nat
  deriving DecidableEq

/-- A row of the `categories(id, name)` table. -/
structure CategoryRow where
  id : Nat
  name : String
  deriving DecidableEq

/-- A row of the `items(id, name, category_id, image_name)` table. -/
structure ItemRow where
  id : Nat
  name : String
  category_id : Nat
  image_name : String
  deriving DecidableEq

/-- The sqlite database: both tables in rowid order plus the next fresh
rowid of each table. -/
structure DBState where
  categories : List CategoryRow
  items : List ItemRow
  nextCategoryId : Nat
  nextItemId : Nat
  deriving DecidableEq

/-- One row of the items-categories join used by the read queries. -/
structure JoinedRow where
  id : Nat
  name : String
  category_name : String
  image_name : String
  deriving DecidableEq

/-- One row of the `/search` response. -/
structure SearchRow where
  name : String
  category : String
  image_name : String
  deriving DecidableEq

/-- An HTTP error response: status code and detail message. -/
structure HTTPError where
  status : Nat
  detail : String
  deriving DecidableEq

/-- The images directory: filename to stored bytes. -/
def ImageStore : Type := String → Option (List Nat)

def emptyStore : ImageStore := fun _ => none

/-- Writing a blob (`open(path, "wb").write(bytes)`). -/
def writeBlob (s : ImageStore) (n : String) (b : List Nat) : ImageStore :=
  Function.update s n (some b)

/-- Removing a blob (`os.remove` / `Path.unlink`). -/
def eraseBlob (s : ImageStore) (n : String) : ImageStore :=
  Function.update s n none

/-! ### Queries -/

/-- `SELECT ... FROM categories WHERE name = ?` (`fetchone`). -/
def findCategoryByName (db : DBState) (name : String) : Option CategoryRow :=
  db.categories.find? (fun r => decide (r.name = name))

/-- Lookup of a category row by id (the join condition
`items.category_id = categories.id`). -/
def findCategoryById (db : DBState) (cid : Nat) : Option CategoryRow :=
  db.categories.find? (fun r => decide (r.id = cid))

/-- `SELECT ... FROM items WHERE name = ?` (`fetchone`). -/
def findItemByName (db : DBState) (name : String) : Option ItemRow :=
  db.items.find? (fun r => decide (r.name = name))

/-- Join one item row with its category; `none` when the `category_id`
dangles (the SQL inner join drops such rows). -/
def joinItem (db : DBState) (it : ItemRow) : Option JoinedRow :=
  (findCategoryById db it.category_id).map
    (fun c => ⟨it.id, it.name, c.name, it.image_name⟩)

/-- `SELECT items.id, items.name, categories.name, items.image_name FROM
items JOIN categories ON items.category_id = categories.id`. -/
def joinRows (db : DBState) : List JoinedRow :=
  db.items.filterMap (joinItem db)

/-- The joined select with `WHERE items.id = ?` (`fetchone`). -/
def joinFind (db : DBState) (item_id : Nat) : Option JoinedRow :=
  (joinRows db).find? (fun r => decide (r.id = item_id))

/-! ### Handlers -/

/-- The category get-or-create block, `main.py` lines 148-156 (also
300-308): look the name up; if absent, insert a new row and `db.commit()`
immediately, taking `cursor.lastrowid` as the id. -/
def getOrCreateCategory (db : DBState) (category : String) : DBState × Nat :=
  match findCategoryByName db category with
  | some row => (db, row.id)
  | none =>
      ({ db with categories := db.categories ++ [⟨db.nextCategoryId, category⟩],
                 nextCategoryId := db.nextCategoryId + 1 },
       db.nextCategoryId)

/-- `insert_item` (`main.py` lines 144-175).  The duplicate-name
`HTTPException(400)` raised at line 163 is caught by the blanket
`except Exception` at line 172, which rolls back the uncommitted item
insert and re-raises a 500.  The category insert was already committed at
line 153, so it survives that rollback. -/
def insert_item (db : DBState) (name category image_name : String) :
    DBState × Except HTTPError Unit :=
  let g := getOrCreateCategory db category
  match findItemByName g.1 name with
  | some _ => (g.1, .error ⟨500, "Failed to save item"⟩)
  | none =>
      ({ g.1 with items := g.1.items ++ [⟨g.1.nextItemId, name, g.2, image_name⟩],
                  nextItemId := g.1.nextItemId + 1 },
       .ok ())

/-- `add_item`, POST `/items` (`main.py` lines 79-116): validation, image
write, then `insert_item`. -/
def add_item (db : DBState) (store : ImageStore) (name category : String)
    (image : UploadFile) : DBState × ImageStore × Except HTTPError String :=
  if name = "" ∨ category = "" then
    (db, store, .error ⟨400, "name, category, and image are required"⟩)
  else if validImageExt image.filename = false then
    (db, store, .error ⟨400, "Uploaded file must have a .jpg or .jpeg extension"⟩)
  else if image.bytes.length > MAX_FILE_SIZE then
    (db, store, .error ⟨400, "File size exceeds the limit"⟩)
  else if image.content_type ≠ "image/jpeg" then
    (db, store, .error ⟨400, "Uploaded file is not a valid JPG image"⟩)
  else
    let image_filename := imageFilename image.bytes
    let store1 := writeBlob store image_filename image.bytes
    let r := insert_item db name category image_filename
    (r.1, store1,
      match r.2 with
      | .ok _ => .ok ("item received: " ++ name)
      | .error e => .error e)

/-- `get_image`, GET `/images/{image_name}` (`main.py` lines 120-133).
This handler has no `try` block, so the 400 propagates; a missing file
falls back to `default.jpg`.  `FileResponse` on a path that does not exist
at all fails at send time, modelled as a 500. -/
def get_image (store : ImageStore) (image_name : String) :
    Except HTTPError (List Nat) :=
  if endsWithS image_name ".jpg" = false then
    .error ⟨400, "Image path does not end with .jpg"⟩
  else
    match store image_name with
    | some b => .ok b
    | none =>
        match store "default.jpg" with
        | some d => .ok d
        | none => .error ⟨500, "file not found"⟩

/-- `get_item`, GET `/items/{item_id}` (`main.py` lines 196-214).  The
`HTTPException(404)` raised at line 209 is caught by the
`except Exception` at line 212 and re-raised as a 500. -/
def get_item (db : DBState) (item_id : Nat) : Except HTTPError JoinedRow :=
  match joinFind db item_id with
  | none => .error ⟨500, "Failed to get item"⟩
  | some r => .ok r

/-! ### LIKE matching

`search_items` filters with ``name LIKE '%keyword%'``.  SQLite's default
`LIKE` is ASCII-case-insensitive; `%` matches any character sequence and
`_` any single character (no escape character is configured). -/

/-- SQLite `LIKE` pattern matching over character lists. -/
def likeM : List Char → List Char → Bool
  | [], s => s.isEmpty
  | p :: ps, s =>
    if p = '%' then s.tails.any (fun t => likeM ps t)
    else
      match s with
      | [] => false
      | c :: s2 => (p == '_' || lowerAscii p == lowerAscii c) && likeM ps s2

/-- The pattern `f"%{keyword}%"` bound at `main.py` line 226. -/
def likePattern (keyword : String) : List Char := '%' :: (keyword.data ++ ['%'])

/-- `search_items`, GET `/search` (`main.py` lines 217-237).  FastAPI's
`Query(..., min_length=1)` rejects an empty keyword before the handler
runs (a 422 validation error). -/
def search_items (db : DBState) (keyword : String) :
    Except HTTPError (List SearchRow) :=
  if keyword.length < 1 then .error ⟨422, "keyword must have at least 1 character"⟩
  else
    .ok (((joinRows db).filter (fun r =>
        likeM (likePattern keyword) r.name.data ||
        likeM (likePattern keyword) r.category_name.data)).map
      (fun r => ⟨r.name, r.category_name, r.image_name⟩))

/-- `delete_item`, DELETE `/items/{item_id}` (`main.py` lines 240-267):
fetch the row's `image_name`; 404 if absent (re-wrapped to 500 by the
`except Exception` at line 264); delete the row and commit; count the
remaining rows referencing the same `image_name`; remove the blob when the
count is zero and the file exists. -/
def delete_item (db : DBState) (store : ImageStore) (item_id : Nat) :
    DBState × ImageStore × Except HTTPError String :=
  match db.items.find? (fun r => decide (r.id = item_id)) with
  | none => (db, store, .error ⟨500, "Failed to delete item"⟩)
  | some it =>
      let db1 := { db with items := db.items.filter (fun r => !decide (r.id = item_id)) }
      let count := (db1.items.filter (fun r => decide (r.image_name = it.image_name))).length
      let store1 :=
        if count = 0 ∧ (store it.image_name).isSome then eraseBlob store it.image_name
        else store
      (db1, store1, .ok ("Item " ++ toString item_id ++ " deleted successfully"))

/-- The name diff of `update_item` (`main.py` line 295):
`if name and name != existing_item["name"]`.  `None` and `""` are both
falsy in Python, so an absent and an empty name behave identically. -/
def diffName (supplied : Option String) (current : String) : Option String :=
  match supplied with
  | some s => if s ≠ "" ∧ s ≠ current then some s else none
  | none => none

/-- The category diff of `update_item` (`main.py` lines 299-311):
`if category and category != existing_item["category_name"]`, then the
get-or-create block (with its immediate commit). -/
def diffCategory (db : DBState) (supplied : Option String) (current : String) :
    DBState × Option Nat :=
  match supplied with
  | some c =>
    if c ≠ "" ∧ c ≠ current then
      ((getOrCreateCategory db c).1, some (getOrCreateCategory db c).2)
    else (db, none)
  | none => (db, none)

/-- The collected `update_fields` / `update_values` of `update_item`. -/
structure UpdSet where
  name : Option String
  category_id : Option Nat
  image_name : Option String
  deriving DecidableEq

def UpdSet.isEmpty (u : UpdSet) : Bool :=
  u.name.isNone && u.category_id.isNone && u.image_name.isNone

/-- Application of the dynamic `UPDATE items SET ... WHERE id = ?`. -/
def applyUpd (u : UpdSet) (it : ItemRow) : ItemRow :=
  { it with name := u.name.getD it.name,
            category_id := u.category_id.getD it.category_id,
            image_name := u.image_name.getD it.image_name }

/-- The tail of `update_item` (`main.py` lines 357-365): return
"no changes" when `update_fields` is empty, otherwise run the UPDATE and
commit. -/
def finishUpdate (db : DBState) (store : ImageStore) (item_id : Nat) (u : UpdSet) :
    DBState × ImageStore × Except HTTPError String :=
  if u.isEmpty then (db, store, .ok "No changes detected, item not updated")
  else
    ({ db with items := db.items.map (fun it => if it.id = item_id then applyUpd u it else it) },
     store, .ok "Item updated successfully")

/-- `update_item`, PATCH `/items/{item_id}` (`main.py` lines 270-370).
The 404 (line 290) and the two image-validation 400s (lines 315, 319) are
raised inside the `try` block, caught by the `except Exception` at line
367, and re-raised as 500s; only statements committed before the failure
(the category insert of lines 304-305) survive the rollback.  The pure
model's blob writes always succeed, so the `not image_path.exists()`
branches after a write (lines 329-331, 346-348) are the success branches. -/
def update_item (db : DBState) (store : ImageStore) (item_id : Nat)
    (name category : Option String) (image : Option UploadFile) :
    DBState × ImageStore × Except HTTPError String :=
  match joinFind db item_id with
  | none => (db, store, .error ⟨500, "Failed to update item"⟩)
  | some ex =>
    let nameUpd := diffName name ex.name
    let dc := diffCategory db category ex.category_name
    match image with
    | none => finishUpdate dc.1 store item_id ⟨nameUpd, dc.2, none⟩
    | some f =>
      if validImageExt f.filename = false then
        (dc.1, store, .error ⟨500, "Failed to update item"⟩)
      else if f.bytes.length > MAX_FILE_SIZE then
        (dc.1, store, .error ⟨500, "Failed to update item"⟩)
      else
        let fn := imageFilename f.bytes
        if fn ≠ ex.image_name then
          let store1 := writeBlob store fn f.bytes
          let store2 :=
            if (store1 ex.image_name).isSome then eraseBlob store1 ex.image_name else store1
          finishUpdate dc.1 store2 item_id ⟨nameUpd, dc.2, some fn⟩
        else if (store fn).isNone then
          finishUpdate dc.1 (writeBlob store fn f.bytes) item_id ⟨nameUpd, dc.2, some fn⟩
        else
          finishUpdate dc.1 store item_id ⟨nameUpd, dc.2, none⟩

/-! ### Concrete fixtures -/

/-- A database holding one category `toys` (id 1) and one item `bat`
(id 1, category 1, image `a.jpg`). -/
def dbBat : DBState := ⟨[⟨1, "toys"⟩], [⟨1, "bat", 1, "a.jpg"⟩], 2, 2⟩

/-- An image store holding only `a.jpg`. -/
def storeBat : ImageStore := fun n => if n = "a.jpg" then some [7] else none

/-- A database with two items (`bat`, `ball`) sharing the image `a.jpg`. -/
def dbTwo : DBState :=
  ⟨[⟨1, "toys"⟩], [⟨1, "bat", 1, "a.jpg"⟩, ⟨2, "ball", 1, "a.jpg"⟩], 2, 3⟩

def bytesSame : List Nat := [9, 9, 9]

/-- A database whose single item references the content hash of
`bytesSame`. -/
def dbHash : DBState := ⟨[⟨1, "toys"⟩], [⟨1, "bat", 1, imageFilename bytesSame⟩], 2, 2⟩

/-- A store holding exactly the blob for `bytesSame`. -/
def storeHash : ImageStore :=
  fun n => if n = imageFilename bytesSame then some bytesSame else none

/-- A store holding only the reserved `default.jpg`. -/
def storeDefault : ImageStore :=
  fun n => if n = "default.jpg" then some [4, 2] else none

/-- A keyword free of LIKE wildcard characters. -/
def noWild (p : List Char) : Prop := ∀ ch ∈ p, ch ≠ '%' ∧ ch ≠ '_'

/-- A database with items `Cat` and `shirt`, both of category `pets`. -/
def dbCat : DBState :=
  ⟨[⟨1, "pets"⟩], [⟨1, "Cat", 1, "x.jpg"⟩, ⟨2, "shirt", 1, "y.jpg"⟩], 2, 3⟩

instance noWild_decidable (p : List Char) : Decidable (noWild p) := by
  unfold noWild
  infer_instance

/-- No item name and no category name in the database is the empty
string. -/
def NamesNonempty (db : DBState) : Prop :=
  (∀ it ∈ db.items, it.name ≠ "") ∧ (∀ r ∈ db.categories, r.name ≠ "")

/-! ### Helper lemmas -/

theorem getOrCreate_items (db : DBState) (c : String) :
    (getOrCreateCategory db c).1.items = db.items := by
  rcases hfc : findCategoryByName db c with _ | row <;>
    simp [getOrCreateCategory, hfc]

theorem getOrCreate_nextItemId (db : DBState) (c : String) :
    (getOrCreateCategory db c).1.nextItemId = db.nextItemId := by
  rcases hfc : findCategoryByName db c with _ | row <;>
    simp [getOrCreateCategory, hfc]

theorem getOrCreate_cats (db : DBState) (c : String) :
    (getOrCreateCategory db c).1.categories = db.categories ∨
    (getOrCreateCategory db c).1.categories =
      db.categories ++ [⟨db.nextCategoryId, c⟩] := by
  rcases hfc : findCategoryByName db c with _ | row
  · right; simp [getOrCreateCategory, hfc]
  · left; simp [getOrCreateCategory, hfc]

theorem diffCategory_items (db : DBState) (ct : Option String) (cur : String) :
    (diffCategory db ct cur).1.items = db.items := by
  rcases ct with _ | c
  · rfl
  · by_cases hc : c ≠ "" ∧ c ≠ cur
    · simp only [diffCategory, if_pos hc]
      exact getOrCreate_items db c
    · simp [diffCategory, if_neg hc]

theorem diffCategory_cats (db : DBState) (ct : Option String) (cur : String) :
    (diffCategory db ct cur).1.categories = db.categories ∨
    ∃ c, ct = some c ∧
      (diffCategory db ct cur).1.categories =
        db.categories ++ [⟨db.nextCategoryId, c⟩] := by
  rcases ct with _ | c
  · left; rfl
  · by_cases hc : c ≠ "" ∧ c ≠ cur
    · simp only [diffCategory, if_pos hc]
      rcases getOrCreate_cats db c with h | h
      · left; exact h
      · right; exact ⟨c, rfl, h⟩
    · left; simp [diffCategory, if_neg hc]

theorem finishUpdate_not_error (db : DBState) (store : ImageStore) (item_id : Nat)
    (u : UpdSet) (e : HTTPError) : (finishUpdate db store item_id u).2.2 ≠ .error e := by
  unfold finishUpdate
  split <;> simp

/-! ### Claims -/

/-- C1: creating an item whose name already exists fails and leaves the
first item's row unchanged — but the HTTP status is 500, not the claimed
400: the `HTTPException(400, "Item already exists")` raised at line 163 is
caught by the blanket `except Exception` at line 172 and re-raised as
`HTTPException(500, "Failed to save item")`.  Evaluated here at the
failing input: `bat` exists, POST /items with name `bat` again. -/
theorem C1_duplicate_name_returns_500 :
    add_item dbBat emptyStore "bat" "toys" ⟨"b.jpg", "image/jpeg", [1]⟩ =
      (dbBat, writeBlob emptyStore (imageFilename [1]) [1],
       .error ⟨500, "Failed to save item"⟩) ∧
    (add_item dbBat emptyStore "bat" "toys" ⟨"b.jpg", "image/jpeg", [1]⟩).1.items =
      dbBat.items := ⟨rfl, rfl⟩

/-- C2: fetching an id that no stored item has fails — but with HTTP 500,
not the claimed 404: the `HTTPException(404)` raised at line 209 is caught
by the `except Exception` at line 212 and re-raised as 500.  Evaluated at
the failing input: GET /items/99 against a store whose only item has
id 1. -/
theorem C2_missing_item_returns_500 :
    get_item dbBat 99 = .error ⟨500, "Failed to get item"⟩ := rfl

/-- C3 (counterexample): a failed Insert is not rolled back wholesale.
Inserting a duplicate item name `bat` with the fresh category name
`sports` fails, yet the new `sports` category row (committed at line 153
before the uniqueness check) survives the rollback. -/
theorem C3_counterexample :
    (insert_item dbBat "bat" "sports" "b.jpg").2 =
      .error ⟨500, "Failed to save item"⟩ ∧
    (insert_item dbBat "bat" "sports" "b.jpg").1.categories =
      [⟨1, "toys"⟩, ⟨2, "sports"⟩] ∧
    (insert_item dbBat "bat" "sports" "b.jpg").1.items = dbBat.items :=
  ⟨rfl, rfl, rfl⟩

/-- C3 (amended): when a write operation fails, the statements not yet
committed are rolled back — in particular no partial item row survives and
the image store is untouched by the repository code — but a category row
inserted by the get-or-create step was committed immediately (lines 153,
305), so it survives the failure of the enclosing operation. -/
theorem C3_rollback_amended :
    (∀ db n c i e, (insert_item db n c i).2 = .error e →
      (insert_item db n c i).1.items = db.items ∧
      ((insert_item db n c i).1.categories = db.categories ∨
       (insert_item db n c i).1.categories =
         db.categories ++ [⟨db.nextCategoryId, c⟩])) ∧
    (∀ db store id nm ct im e, (update_item db store id nm ct im).2.2 = .error e →
      (update_item db store id nm ct im).1.items = db.items ∧
      ((update_item db store id nm ct im).1.categories = db.categories ∨
       ∃ c, ct = some c ∧
         (update_item db store id nm ct im).1.categories =
           db.categories ++ [⟨db.nextCategoryId, c⟩]) ∧
      (update_item db store id nm ct im).2.1 = store) ∧
    (∀ db store id e, (delete_item db store id).2.2 = .error e →
      delete_item db store id = (db, store, .error e)) := by
  refine ⟨?_, ?_, ?_⟩
  · intro db n c i e h
    rcases hq : findItemByName (getOrCreateCategory db c).1 n with _ | it
    · simp [insert_item, hq] at h
    · simp only [insert_item, hq]
      exact ⟨getOrCreate_items db c, getOrCreate_cats db c⟩
  · intro db store id nm ct im e h
    rcases hj : joinFind db id with _ | ex
    · simp [update_item, hj]
    · rcases im with _ | f
      · simp only [update_item, hj] at h
        exact absurd h (finishUpdate_not_error _ _ _ _ _)
      · by_cases hv : validImageExt f.filename = false
        · have he : update_item db store id nm ct (some f) =
              ((diffCategory db ct ex.category_name).1, store,
               .error ⟨500, "Failed to update item"⟩) := by
            simp [update_item, hj, hv]
          rw [he]
          exact ⟨diffCategory_items db ct ex.category_name,
                 diffCategory_cats db ct ex.category_name, rfl⟩
        · by_cases hs : f.bytes.length > MAX_FILE_SIZE
          · have he : update_item db store id nm ct (some f) =
                ((diffCategory db ct ex.category_name).1, store,
                 .error ⟨500, "Failed to update item"⟩) := by
              simp [update_item, hj, hv, hs]
            rw [he]
            exact ⟨diffCategory_items db ct ex.category_name,
                   diffCategory_cats db ct ex.category_name, rfl⟩
          · exfalso
            simp only [update_item, hj, if_neg hv, if_neg hs] at h
            by_cases hne : imageFilename f.bytes ≠ ex.image_name
            · rw [if_pos hne] at h
              exact finishUpdate_not_error _ _ _ _ _ h
            · rw [if_neg hne] at h
              by_cases hn : (store (imageFilename f.bytes)).isNone
              · rw [if_pos hn] at h
                exact finishUpdate_not_error _ _ _ _ _ h
              · rw [if_neg hn] at h
                exact finishUpdate_not_error _ _ _ _ _ h
  · intro db store id e h
    rcases hf : db.items.find? (fun r => decide (r.id = id)) with _ | it
    · have he : delete_item db store id =
          (db, store, .error ⟨500, "Failed to delete item"⟩) := by
        simp [delete_item, hf]
      have he2 : (⟨500, "Failed to delete item"⟩ : HTTPError) = e := by
        rw [he] at h
        exact Except.error.inj h
      rw [he, ← he2]
    · simp [delete_item, hf] at h

/-- C3 witness: the amended theorem applied at concrete failing requests
(duplicate-name insert, update of a missing id, delete of a missing id). -/
theorem C3_rollback_amended_witness :
    ((insert_item dbBat "bat" "sports" "b.jpg").1.items = dbBat.items ∧
     ((insert_item dbBat "bat" "sports" "b.jpg").1.categories = dbBat.categories ∨
      (insert_item dbBat "bat" "sports" "b.jpg").1.categories =
        dbBat.categories ++ [⟨dbBat.nextCategoryId, "sports"⟩])) ∧
    ((update_item dbBat storeBat 99 none none none).1.items = dbBat.items ∧
     ((update_item dbBat storeBat 99 none none none).1.categories = dbBat.categories ∨
      ∃ c, (none : Option String) = some c ∧
        (update_item dbBat storeBat 99 none none none).1.categories =
          dbBat.categories ++ [⟨dbBat.nextCategoryId, c⟩]) ∧
     (update_item dbBat storeBat 99 none none none).2.1 = storeBat) ∧
    delete_item dbBat storeBat 99 =
      (dbBat, storeBat, .error ⟨500, "Failed to delete item"⟩) :=
  ⟨C3_rollback_amended.1 dbBat "bat" "sports" "b.jpg" ⟨500, "Failed to save item"⟩ rfl,
   C3_rollback_amended.2.1 dbBat storeBat 99 none none none
     ⟨500, "Failed to update item"⟩ rfl,
   C3_rollback_amended.2.2 dbBat storeBat 99 ⟨500, "Failed to delete item"⟩ rfl⟩

theorem add_item_store (db : DBState) (store : ImageStore) (n c : String)
    (f : UploadFile) (hn : n ≠ "") (hc : c ≠ "")
    (he : validImageExt f.filename = true)
    (hs : f.bytes.length ≤ MAX_FILE_SIZE) (hm : f.content_type = "image/jpeg") :
    (add_item db store n c f).2.1 = writeBlob store (imageFilename f.bytes) f.bytes := by
  have h1 : ¬(n = "" ∨ c = "") := by simp [hn, hc]
  have h2 : ¬(validImageExt f.filename = false) := by simp [he]
  have h3 : ¬(f.bytes.length > MAX_FILE_SIZE) := by omega
  have h4 : ¬(f.content_type ≠ "image/jpeg") := by simp [hm]
  simp only [add_item, if_neg h1, if_neg h2, if_neg h3, if_neg h4]

/-- C4: POST stores a blob under the filename `hex(sha256(bytes)) + ".jpg"`
derived from the content alone; uploading identical bytes twice — for any
item names and categories, and whatever the repository does with the rows —
leaves the image store exactly as after the first upload: one stored copy
under the content-derived name. -/
theorem C4_content_addressing_idempotent (db1 db2 : DBState) (store : ImageStore)
    (n1 c1 n2 c2 : String) (f1 f2 : UploadFile) (hb : f2.bytes = f1.bytes)
    (hn1 : n1 ≠ "") (hc1 : c1 ≠ "") (hn2 : n2 ≠ "") (hc2 : c2 ≠ "")
    (he1 : validImageExt f1.filename = true) (he2 : validImageExt f2.filename = true)
    (hs1 : f1.bytes.length ≤ MAX_FILE_SIZE) (hs2 : f2.bytes.length ≤ MAX_FILE_SIZE)
    (hm1 : f1.content_type = "image/jpeg") (hm2 : f2.content_type = "image/jpeg") :
    (add_item db1 store n1 c1 f1).2.1 =
      writeBlob store (imageFilename f1.bytes) f1.bytes ∧
    (add_item db2 (add_item db1 store n1 c1 f1).2.1 n2 c2 f2).2.1 =
      writeBlob store (imageFilename f1.bytes) f1.bytes := by
  have first := add_item_store db1 store n1 c1 f1 hn1 hc1 he1 hs1 hm1
  refine ⟨first, ?_⟩
  rw [add_item_store db2 _ n2 c2 f2 hn2 hc2 he2 hs2 hm2, first, hb]
  simp only [writeBlob, Function.update_idem]

/-- C4 witness: two uploads of the bytes `[1, 2, 3]` under different item
names, evaluated through the theorem. -/
theorem C4_content_addressing_idempotent_witness :
    (add_item dbBat emptyStore "ball" "toys" ⟨"a.jpg", "image/jpeg", [1, 2, 3]⟩).2.1 =
      writeBlob emptyStore (imageFilename [1, 2, 3]) [1, 2, 3] ∧
    (add_item dbBat
        (add_item dbBat emptyStore "ball" "toys" ⟨"a.jpg", "image/jpeg", [1, 2, 3]⟩).2.1
        "pen" "office" ⟨"b.JPG", "image/jpeg", [1, 2, 3]⟩).2.1 =
      writeBlob emptyStore (imageFilename [1, 2, 3]) [1, 2, 3] :=
  C4_content_addressing_idempotent dbBat dbBat emptyStore "ball" "toys" "pen" "office"
    ⟨"a.jpg", "image/jpeg", [1, 2, 3]⟩ ⟨"b.JPG", "image/jpeg", [1, 2, 3]⟩ rfl
    (by decide) (by decide) (by decide) (by decide)
    (by decide) (by decide) (by decide) (by decide) rfl rfl

/-- C5: deleting a stored item removes exactly its row, then removes the
referenced blob from storage if and only if no remaining row references
that `image_name` (removal of an absent blob being a no-op); when other
rows still reference it the store is untouched. -/
theorem C5_delete_refcounted_cleanup (db : DBState) (store : ImageStore)
    (item_id : Nat) (it : ItemRow)
    (h : db.items.find? (fun r => decide (r.id = item_id)) = some it) :
    delete_item db store item_id =
      ({ db with items := db.items.filter (fun r => !decide (r.id = item_id)) },
       if ((db.items.filter (fun r => !decide (r.id = item_id))).filter
             (fun r => decide (r.image_name = it.image_name))).length = 0
       then eraseBlob store it.image_name
       else store,
       .ok ("Item " ++ toString item_id ++ " deleted successfully")) := by
  simp only [delete_item, h, Prod.mk.injEq]
  refine ⟨trivial, ?_, trivial⟩
  by_cases hc : ((db.items.filter (fun r => !decide (r.id = item_id))).filter
      (fun r => decide (r.image_name = it.image_name))).length = 0
  · by_cases hm : (store it.image_name).isSome
    · rw [if_pos ⟨hc, hm⟩, if_pos hc]
    · rw [if_neg (fun hand => hm hand.2), if_pos hc]
      have hnone : store it.image_name = none := Option.not_isSome_iff_eq_none.mp hm
      rw [eraseBlob, ← hnone, Function.update_eq_self]
  · rw [if_neg (fun hand => hc hand.1), if_neg hc]

/-- C5 witness: deleting item 1 of two items sharing `a.jpg`; the
remaining reference count is 1, so the store keeps the blob. -/
theorem C5_delete_refcounted_cleanup_witness :
    delete_item dbTwo storeBat 1 =
      ({ dbTwo with items := dbTwo.items.filter (fun r => !decide (r.id = 1)) },
       if ((dbTwo.items.filter (fun r => !decide (r.id = 1))).filter
             (fun r => decide (r.image_name = (⟨1, "bat", 1, "a.jpg"⟩ : ItemRow).image_name))).length = 0
       then eraseBlob storeBat (⟨1, "bat", 1, "a.jpg"⟩ : ItemRow).image_name
       else storeBat,
       .ok ("Item " ++ toString 1 ++ " deleted successfully")) :=
  C5_delete_refcounted_cleanup dbTwo storeBat 1 ⟨1, "bat", 1, "a.jpg"⟩ rfl

theorem insert_item_cat_found (db : DBState) (n c i : String) (row : CategoryRow)
    (hfc : findCategoryByName db c = some row) (hn : findItemByName db n = none) :
    insert_item db n c i =
      (⟨db.categories, db.items ++ [⟨db.nextItemId, n, row.id, i⟩],
        db.nextCategoryId, db.nextItemId + 1⟩, .ok ()) := by
  have hg : getOrCreateCategory db c = (db, row.id) := by
    simp [getOrCreateCategory, hfc]
  simp [insert_item, hg, hn]

theorem insert_item_cat_fresh (db : DBState) (n c i : String)
    (hfc : findCategoryByName db c = none) (hn : findItemByName db n = none) :
    insert_item db n c i =
      (⟨db.categories ++ [⟨db.nextCategoryId, c⟩],
        db.items ++ [⟨db.nextItemId, n, db.nextCategoryId, i⟩],
        db.nextCategoryId + 1, db.nextItemId + 1⟩, .ok ()) := by
  have hg : getOrCreateCategory db c =
      ({ db with categories := db.categories ++ [⟨db.nextCategoryId, c⟩],
                 nextCategoryId := db.nextCategoryId + 1 }, db.nextCategoryId) := by
    simp [getOrCreateCategory, hfc]
  have hn2 : findItemByName
      ({ db with categories := db.categories ++ [⟨db.nextCategoryId, c⟩],
                 nextCategoryId := db.nextCategoryId + 1 } : DBState) n = none := hn
  simp [insert_item, hg, hn2]

theorem filter_singleton_of_find_uniq (l : List CategoryRow) (c : String)
    (row : CategoryRow) (hfind : l.find? (fun r => decide (r.name = c)) = some row)
    (huniq : (l.filter (fun r => decide (r.name = c))).length ≤ 1) :
    l.filter (fun r => decide (r.name = c)) = [row] := by
  have hp := List.find?_some hfind
  have hmem : row ∈ l.filter (fun r => decide (r.name = c)) :=
    List.mem_filter.mpr ⟨List.mem_of_find?_eq_some hfind, hp⟩
  have hne : l.filter (fun r => decide (r.name = c)) ≠ [] := List.ne_nil_of_mem hmem
  have hlen : (l.filter (fun r => decide (r.name = c))).length = 1 := by
    have := List.length_pos.mpr hne
    omega
  rcases List.length_eq_one.mp hlen with ⟨a, ha⟩
  rw [ha] at hmem ⊢
  rw [List.mem_singleton.mp hmem]

/-- C6: category resolution at item-write time is get-or-create — an
existing row's id is returned unchanged, a missing name causes exactly one
new row to be inserted and its id returned — and creating two items with
the same category name leaves exactly one category row with that name,
whose id both new items reference. -/
theorem C6_category_get_or_create :
    (∀ db c row, findCategoryByName db c = some row →
       getOrCreateCategory db c = (db, row.id)) ∧
    (∀ db c, findCategoryByName db c = none →
       getOrCreateCategory db c =
         ({ db with categories := db.categories ++ [⟨db.nextCategoryId, c⟩],
                    nextCategoryId := db.nextCategoryId + 1 }, db.nextCategoryId)) ∧
    (∀ db c n1 n2 i1 i2,
       (db.categories.filter (fun r => decide (r.name = c))).length ≤ 1 →
       findItemByName db n1 = none → findItemByName db n2 = none → n1 ≠ n2 →
       ∃ row : CategoryRow, row.name = c ∧
         (insert_item (insert_item db n1 c i1).1 n2 c i2).1.categories.filter
            (fun r => decide (r.name = c)) = [row] ∧
         ∃ it1 it2 : ItemRow,
           findItemByName (insert_item (insert_item db n1 c i1).1 n2 c i2).1 n1 =
             some it1 ∧
           findItemByName (insert_item (insert_item db n1 c i1).1 n2 c i2).1 n2 =
             some it2 ∧
           it1.category_id = row.id ∧ it2.category_id = row.id) := by
  refine ⟨?_, ?_, ?_⟩
  · intro db c row hfc
    simp [getOrCreateCategory, hfc]
  · intro db c hfc
    simp [getOrCreateCategory, hfc]
  · intro db c n1 n2 i1 i2 huniq h1 h2 hne
    have hne21 : ¬(n1 = n2) := hne
    have h1' : List.find? (fun r : ItemRow => decide (r.name = n1)) db.items = none := h1
    have h2' : List.find? (fun r : ItemRow => decide (r.name = n2)) db.items = none := h2
    rcases hfc : findCategoryByName db c with _ | row
    · -- category absent: the first insert creates it
      have hfc' : List.find? (fun r : CategoryRow => decide (r.name = c)) db.categories =
          none := hfc
      have e1 := insert_item_cat_fresh db n1 c i1 hfc h1
      simp only [e1]
      have hfc2 : findCategoryByName
          (⟨db.categories ++ [⟨db.nextCategoryId, c⟩],
            db.items ++ [⟨db.nextItemId, n1, db.nextCategoryId, i1⟩],
            db.nextCategoryId + 1, db.nextItemId + 1⟩ : DBState) c =
          some ⟨db.nextCategoryId, c⟩ := by
        show List.find? (fun r : CategoryRow => decide (r.name = c))
            (db.categories ++ [⟨db.nextCategoryId, c⟩]) = some ⟨db.nextCategoryId, c⟩
        rw [List.find?_append, hfc']
        simp
      have h2b : findItemByName
          (⟨db.categories ++ [⟨db.nextCategoryId, c⟩],
            db.items ++ [⟨db.nextItemId, n1, db.nextCategoryId, i1⟩],
            db.nextCategoryId + 1, db.nextItemId + 1⟩ : DBState) n2 = none := by
        show List.find? (fun r : ItemRow => decide (r.name = n2))
            (db.items ++ [⟨db.nextItemId, n1, db.nextCategoryId, i1⟩]) = none
        rw [List.find?_append, h2']
        simp [hne21]
      have e2 := insert_item_cat_found _ n2 c i2 ⟨db.nextCategoryId, c⟩ hfc2 h2b
      simp only [e2]
      refine ⟨⟨db.nextCategoryId, c⟩, rfl, ?_, ?_⟩
      · show List.filter (fun r : CategoryRow => decide (r.name = c))
            (db.categories ++ [⟨db.nextCategoryId, c⟩]) = [⟨db.nextCategoryId, c⟩]
        rw [List.filter_append]
        have hnil : db.categories.filter (fun r => decide (r.name = c)) = [] := by
          rw [List.filter_eq_nil_iff]
          intro a ha
          have := List.find?_eq_none.mp hfc' a ha
          simpa using this
        rw [hnil]
        simp
      · refine ⟨⟨db.nextItemId, n1, db.nextCategoryId, i1⟩,
                ⟨db.nextItemId + 1, n2, db.nextCategoryId, i2⟩, ?_, ?_, rfl, rfl⟩
        · show List.find? (fun r : ItemRow => decide (r.name = n1))
              ((db.items ++ [⟨db.nextItemId, n1, db.nextCategoryId, i1⟩]) ++
               [⟨db.nextItemId + 1, n2, db.nextCategoryId, i2⟩]) =
              some ⟨db.nextItemId, n1, db.nextCategoryId, i1⟩
          rw [List.find?_append, List.find?_append, h1']
          simp
        · show List.find? (fun r : ItemRow => decide (r.name = n2))
              ((db.items ++ [⟨db.nextItemId, n1, db.nextCategoryId, i1⟩]) ++
               [⟨db.nextItemId + 1, n2, db.nextCategoryId, i2⟩]) =
              some ⟨db.nextItemId + 1, n2, db.nextCategoryId, i2⟩
          rw [List.find?_append, List.find?_append, h2']
          simp [hne21]
    · -- category present: both inserts reuse its id
      have e1 := insert_item_cat_found db n1 c i1 row hfc h1
      simp only [e1]
      have hfc2 : findCategoryByName
          (⟨db.categories, db.items ++ [⟨db.nextItemId, n1, row.id, i1⟩],
            db.nextCategoryId, db.nextItemId + 1⟩ : DBState) c = some row := hfc
      have h2b : findItemByName
          (⟨db.categories, db.items ++ [⟨db.nextItemId, n1, row.id, i1⟩],
            db.nextCategoryId, db.nextItemId + 1⟩ : DBState) n2 = none := by
        show List.find? (fun r : ItemRow => decide (r.name = n2))
            (db.items ++ [⟨db.nextItemId, n1, row.id, i1⟩]) = none
        rw [List.find?_append, h2']
        simp [hne21]
      have e2 := insert_item_cat_found _ n2 c i2 row hfc2 h2b
      simp only [e2]
      refine ⟨row, ?_, ?_, ?_⟩
      · simpa using List.find?_some hfc
      · exact filter_singleton_of_find_uniq db.categories c row hfc huniq
      · refine ⟨⟨db.nextItemId, n1, row.id, i1⟩,
                ⟨db.nextItemId + 1, n2, row.id, i2⟩, ?_, ?_, rfl, rfl⟩
        · show List.find? (fun r : ItemRow => decide (r.name = n1))
              ((db.items ++ [⟨db.nextItemId, n1, row.id, i1⟩]) ++
               [⟨db.nextItemId + 1, n2, row.id, i2⟩]) =
              some ⟨db.nextItemId, n1, row.id, i1⟩
          rw [List.find?_append, List.find?_append, h1']
          simp
        · show List.find? (fun r : ItemRow => decide (r.name = n2))
              ((db.items ++ [⟨db.nextItemId, n1, row.id, i1⟩]) ++
               [⟨db.nextItemId + 1, n2, row.id, i2⟩]) =
              some ⟨db.nextItemId + 1, n2, row.id, i2⟩
          rw [List.find?_append, List.find?_append, h2']
          simp [hne21]

/-- C6 witness: two items `ball` and `pen` created with category `toys`
in an empty database. -/
theorem C6_category_get_or_create_witness :
    ∃ row : CategoryRow, row.name = "toys" ∧
      (insert_item (insert_item ⟨[], [], 1, 1⟩ "ball" "toys" "a.jpg").1
          "pen" "toys" "b.jpg").1.categories.filter
        (fun r => decide (r.name = "toys")) = [row] ∧
      ∃ it1 it2 : ItemRow,
        findItemByName (insert_item (insert_item ⟨[], [], 1, 1⟩ "ball" "toys" "a.jpg").1
            "pen" "toys" "b.jpg").1 "ball" = some it1 ∧
        findItemByName (insert_item (insert_item ⟨[], [], 1, 1⟩ "ball" "toys" "a.jpg").1
            "pen" "toys" "b.jpg").1 "pen" = some it2 ∧
        it1.category_id = row.id ∧ it2.category_id = row.id :=
  C6_category_get_or_create.2.2 ⟨[], [], 1, 1⟩ "toys" "ball" "pen" "a.jpg" "b.jpg"
    (by decide) rfl rfl (by decide)
theorem update_item_noop (db : DBState) (store : ImageStore) (item_id : Nat)
    (ex : JoinedRow) (nm ct : Option String) (im : Option UploadFile)
    (h1 : joinFind db item_id = some ex)
    (h2 : nm = none ∨ nm = some "" ∨ nm = some ex.name)
    (h3 : ct = none ∨ ct = some "" ∨ ct = some ex.category_name)
    (h4 : ∀ f, im = some f → validImageExt f.filename = true ∧
        f.bytes.length ≤ MAX_FILE_SIZE ∧ imageFilename f.bytes = ex.image_name ∧
        (store ex.image_name).isSome = true) :
    update_item db store item_id nm ct im =
      (db, store, .ok "No changes detected, item not updated") := by
  have hdn : diffName nm ex.name = none := by
    rcases h2 with h | h | h <;> subst h <;> simp [diffName]
  have hdc : diffCategory db ct ex.category_name = (db, none) := by
    rcases h3 with h | h | h <;> subst h <;> simp [diffCategory]
  rcases im with _ | f
  · simp [update_item, h1, hdn, hdc, finishUpdate, UpdSet.isEmpty]
  · obtain ⟨hv, hs, hh, hp⟩ := h4 f rfl
    have hs' : ¬(f.bytes.length > MAX_FILE_SIZE) := by omega
    obtain ⟨b, hb⟩ := Option.isSome_iff_exists.mp hp
    simp [update_item, h1, hdn, hdc, hv, hs', hh, hb, finishUpdate, UpdSet.isEmpty]

/-- C7 (amended): a PATCH on an existing item that supplies no fields, or
only fields equal to the current values — same name, same category name,
and an image that passes the extension and size validation whose bytes
hash to the current `image_name` while that blob is present — returns the
"no changes" result and leaves the row, the category table and the image
store unchanged.  (The validation proviso is forced: an equal-bytes upload
whose filename fails the extension check errors out instead, see the
counterexample.) -/
theorem C7_update_noop (db : DBState) (store : ImageStore) (item_id : Nat)
    (ex : JoinedRow) (nm ct : Option String) (im : Option UploadFile)
    (h1 : joinFind db item_id = some ex)
    (h2 : nm = none ∨ nm = some ex.name)
    (h3 : ct = none ∨ ct = some ex.category_name)
    (h4 : ∀ f, im = some f → validImageExt f.filename = true ∧
        f.bytes.length ≤ MAX_FILE_SIZE ∧ imageFilename f.bytes = ex.image_name ∧
        (store ex.image_name).isSome = true) :
    update_item db store item_id nm ct im =
      (db, store, .ok "No changes detected, item not updated") :=
  update_item_noop db store item_id ex nm ct im h1
    (h2.imp id Or.inr) (h3.imp id Or.inr) h4

/-- C7 witness: PATCH with no fields on the item `bat`. -/
theorem C7_update_noop_witness :
    update_item dbBat storeBat 1 none none none =
      (dbBat, storeBat, .ok "No changes detected, item not updated") :=
  C7_update_noop dbBat storeBat 1 ⟨1, "bat", "toys", "a.jpg"⟩ none none none rfl
    (Or.inl rfl) (Or.inl rfl) (fun _ h => nomatch h)

/-- C7 (counterexample): a PATCH that supplies only an image whose bytes
hash to the item's current `image_name` (blob present) — all conditions of
the claim — but whose upload filename ends in `.png`.  The claim demands
the "no changes" result; the code raises the extension `HTTPException`
(line 314) before ever comparing hashes, and the blanket handler returns a
500 error. -/
theorem C7_counterexample :
    (storeHash ((⟨1, "bat", 1, imageFilename bytesSame⟩ : ItemRow).image_name)).isSome =
      true ∧
    imageFilename bytesSame =
      (⟨1, "bat", 1, imageFilename bytesSame⟩ : ItemRow).image_name ∧
    update_item dbHash storeHash 1 none none
        (some ⟨"same.png", "image/jpeg", bytesSame⟩) =
      (dbHash, storeHash, .error ⟨500, "Failed to update item"⟩) ∧
    update_item dbHash storeHash 1 none none
        (some ⟨"same.png", "image/jpeg", bytesSame⟩) ≠
      (dbHash, storeHash, .ok "No changes detected, item not updated") := by
  have heval : update_item dbHash storeHash 1 none none
      (some ⟨"same.png", "image/jpeg", bytesSame⟩) =
      (dbHash, storeHash, .error ⟨500, "Failed to update item"⟩) := rfl
  refine ⟨?_, rfl, heval, ?_⟩
  · show (if imageFilename bytesSame = imageFilename bytesSame
        then some bytesSame else none).isSome = true
    rw [if_pos rfl]
    rfl
  · rw [heval]
    simp

/-- C8: for a requested name ending in `.jpg` that is absent from the
image store, GET `/images/{name}` returns the bytes of the reserved
`default.jpg` with status 200 (never 404); for a name not ending in
`.jpg` it fails with 400 for every store whatsoever, i.e. before reading
storage. -/
theorem C8_get_image_fallback :
    (∀ (store : ImageStore) (name : String), endsWithS name ".jpg" = false →
       get_image store name = .error ⟨400, "Image path does not end with .jpg"⟩) ∧
    (∀ (store : ImageStore) (name : String) (d : List Nat),
       endsWithS name ".jpg" = true → store name = none →
       store "default.jpg" = some d → get_image store name = .ok d) := by
  constructor
  · intro store name h
    simp [get_image, h]
  · intro store name d h hn hd
    simp [get_image, h, hn, hd]

/-- C8 witness: a wrong-suffix request and a missing-blob request. -/
theorem C8_get_image_fallback_witness :
    get_image storeDefault "x.png" =
      .error ⟨400, "Image path does not end with .jpg"⟩ ∧
    get_image storeDefault "doesnotexist.jpg" = .ok [4, 2] :=
  ⟨C8_get_image_fallback.1 storeDefault "x.png" (by decide),
   C8_get_image_fallback.2 storeDefault "doesnotexist.jpg" [4, 2] (by decide) rfl rfl⟩

/-! ### SQLite LIKE versus case-insensitive substring containment -/

theorem likeM_tail_match (p : List Char) (hw : noWild p) :
    ∀ t : List Char,
      (likeM (p ++ ['%']) t = true ↔ (p.map lowerAscii) <+: (t.map lowerAscii)) := by
  induction p with
  | nil =>
    intro t
    simp only [List.nil_append, List.map_nil]
    constructor
    · intro _
      exact List.nil_prefix
    · intro _
      show (t.tails.any fun u => likeM [] u) = true
      rw [List.any_eq_true]
      exact ⟨[], (List.mem_tails _ _).mpr List.nil_suffix, rfl⟩
  | cons c p ih =>
    intro t
    have hc := hw c (List.mem_cons_self c p)
    have hw2 : noWild p := fun ch hm => hw ch (List.mem_cons_of_mem c hm)
    rw [List.cons_append]
    rcases t with _ | ⟨d, t2⟩
    · simp [likeM, hc.1]
    · simp only [likeM, if_neg hc.1, List.map_cons, List.cons_prefix_cons,
                 Bool.and_eq_true, Bool.or_eq_true, beq_iff_eq]
      constructor
      · rintro ⟨hcd | hcd, hrest⟩
        · exact absurd hcd hc.2
        · exact ⟨hcd, (ih hw2 t2).mp hrest⟩
      · rintro ⟨hcd, hrest⟩
        exact ⟨Or.inr hcd, (ih hw2 t2).mpr hrest⟩

theorem likeM_percent (ps : List Char) (t : List Char) :
    likeM ('%' :: ps) t = true ↔ ∃ u, u <:+ t ∧ likeM ps u = true := by
  show (t.tails.any fun u => likeM ps u) = true ↔ _
  rw [List.any_eq_true]
  constructor
  · rintro ⟨u, hu, hl⟩
    exact ⟨u, (List.mem_tails _ _).mp hu, hl⟩
  · rintro ⟨u, hu, hl⟩
    exact ⟨u, (List.mem_tails _ _).mpr hu, hl⟩

theorem suffix_of_map_exists {f : Char → Char} {s : List Char} {w : List Char}
    (h : w <:+ s.map f) : ∃ u, u <:+ s ∧ w = u.map f := by
  obtain ⟨a, ha⟩ := h
  refine ⟨s.drop a.length, List.drop_suffix a.length s, ?_⟩
  rw [List.map_drop, ← ha, List.drop_left]

/-- For a wildcard-free keyword, the LIKE pattern `%kw%` matches a string
exactly when the case-folded keyword is an infix of the case-folded
string. -/
theorem likeM_contains (p t : List Char) (hw : noWild p) :
    likeM ('%' :: (p ++ ['%'])) t = true ↔
      (p.map lowerAscii) <:+: (t.map lowerAscii) := by
  rw [likeM_percent]
  constructor
  · rintro ⟨u, hu, hl⟩
    exact List.infix_iff_prefix_suffix.mpr
      ⟨u.map lowerAscii, (likeM_tail_match p hw u).mp hl, List.IsSuffix.map _ hu⟩
  · intro hinf
    obtain ⟨w, hwpre, hwsuf⟩ := List.infix_iff_prefix_suffix.mp hinf
    obtain ⟨u, hu, rfl⟩ := suffix_of_map_exists hwsuf
    exact ⟨u, hu, (likeM_tail_match p hw u).mpr hwpre⟩

/-- C9 (counterexample): searching `cat` returns the item named `Cat`,
although neither its name `Cat` nor its category `pets` contains the
keyword `cat` as a substring — SQLite's `LIKE` matches
case-insensitively, so the search does not return "exactly the items whose
name or category name contains the keyword as a substring". -/
theorem C9_counterexample :
    search_items dbCat "cat" = .ok [⟨"Cat", "pets", "x.jpg"⟩] ∧
    ¬("cat".data <:+: "Cat".data) ∧ ¬("cat".data <:+: "pets".data) :=
  ⟨rfl, by decide, by decide⟩

/-- C9 (amended): for every non-empty keyword containing no LIKE wildcard
(`%` or `_`), search returns exactly the (joined) items whose name or
category name contains the keyword as an ASCII-case-insensitive substring,
and no others; general keywords follow SQLite LIKE semantics, with `%` and
`_` acting as wildcards. -/
theorem C9_search_ci_substring (db : DBState) (kw : String)
    (hk : kw ≠ "") (hw : noWild kw.data) :
    search_items db kw =
      .ok (((joinRows db).filter (fun r =>
          decide ((kw.data.map lowerAscii) <:+: (r.name.data.map lowerAscii)) ||
          decide ((kw.data.map lowerAscii) <:+: (r.category_name.data.map lowerAscii)))).map
        (fun r => ⟨r.name, r.category_name, r.image_name⟩)) := by
  have hdne : kw.data ≠ [] := by
    intro hnil
    exact hk (by cases kw with | mk l => simp only at hnil; rw [hnil])
  have hlen : ¬(kw.length < 1) := by
    have := List.length_pos.mpr hdne
    show ¬(kw.data.length < 1)
    omega
  have hcomp : ∀ s : String, likeM (likePattern kw) s.data =
      decide ((kw.data.map lowerAscii) <:+: (s.data.map lowerAscii)) := by
    intro s
    by_cases hinf : (kw.data.map lowerAscii) <:+: (s.data.map lowerAscii)
    · rw [decide_eq_true hinf]
      exact (likeM_contains kw.data s.data hw).mpr hinf
    · rw [decide_eq_false hinf, Bool.eq_false_iff]
      exact fun hl => hinf ((likeM_contains kw.data s.data hw).mp hl)
  simp only [search_items, if_neg hlen]
  refine congrArg Except.ok (congrArg _ ?_)
  exact List.filter_congr (fun r _ => by rw [hcomp r.name, hcomp r.category_name])

/-- C9 witness: searching `pets` through the theorem. -/
theorem C9_search_ci_substring_witness :
    search_items dbCat "pets" =
      .ok (((joinRows dbCat).filter (fun r =>
          decide (("pets".data.map lowerAscii) <:+: (r.name.data.map lowerAscii)) ||
          decide (("pets".data.map lowerAscii) <:+:
            (r.category_name.data.map lowerAscii)))).map
        (fun r => ⟨r.name, r.category_name, r.image_name⟩)) :=
  C9_search_ci_substring dbCat "pets" (by decide) (by decide)

/-! ### Non-empty names invariant -/

theorem getOrCreate_names (db : DBState) (c : String) (hc : c ≠ "")
    (h : ∀ r ∈ db.categories, r.name ≠ "") :
    ∀ r ∈ (getOrCreateCategory db c).1.categories, r.name ≠ "" := by
  rcases hfc : findCategoryByName db c with _ | row
  · simp only [getOrCreateCategory, hfc]
    intro r hr
    rcases List.mem_append.mp hr with hm | hm
    · exact h r hm
    · rw [List.mem_singleton.mp hm]
      exact hc
  · simp only [getOrCreateCategory, hfc]
    exact h

theorem diffCategory_names (db : DBState) (ct : Option String) (cur : String)
    (h : ∀ r ∈ db.categories, r.name ≠ "") :
    ∀ r ∈ (diffCategory db ct cur).1.categories, r.name ≠ "" := by
  rcases ct with _ | c
  · exact h
  · by_cases hc : c ≠ "" ∧ c ≠ cur
    · simp only [diffCategory, if_pos hc]
      exact getOrCreate_names db c hc.1 h
    · simp only [diffCategory, if_neg hc]
      exact h

theorem diffName_ne_empty (nm : Option String) (cur s : String)
    (h : diffName nm cur = some s) : s ≠ "" := by
  rcases nm with _ | t
  · exact Option.noConfusion h
  · simp only [diffName] at h
    by_cases ht : t ≠ "" ∧ t ≠ cur
    · rw [if_pos ht] at h
      cases h
      exact ht.1
    · rw [if_neg ht] at h
      exact Option.noConfusion h

theorem finishUpdate_names (db : DBState) (store : ImageStore) (id : Nat) (u : UpdSet)
    (hu : ∀ s, u.name = some s → s ≠ "")
    (h : ∀ it ∈ db.items, it.name ≠ "") :
    ∀ it ∈ (finishUpdate db store id u).1.items, it.name ≠ "" := by
  unfold finishUpdate
  split
  · exact h
  · intro it hit
    rcases List.mem_map.mp hit with ⟨it0, hm, rfl⟩
    by_cases hid : it0.id = id
    · rw [if_pos hid]
      show u.name.getD it0.name ≠ ""
      rcases hn : u.name with _ | s
      · rw [Option.getD_none]
        exact h it0 hm
      · rw [Option.getD_some]
        exact hu s hn
    · rw [if_neg hid]
      exact h it0 hm

theorem update_item_names (db : DBState) (store : ImageStore) (id : Nat)
    (nm ct : Option String) (im : Option UploadFile)
    (h : ∀ it ∈ db.items, it.name ≠ "") :
    ∀ it ∈ (update_item db store id nm ct im).1.items, it.name ≠ "" := by
  rcases hj : joinFind db id with _ | ex
  · simp only [update_item, hj]
    exact h
  · have hbase : ∀ it ∈ (diffCategory db ct ex.category_name).1.items, it.name ≠ "" := by
      rw [diffCategory_items]
      exact h
    have hdn : ∀ s, diffName nm ex.name = some s → s ≠ "" :=
      fun s hs => diffName_ne_empty nm ex.name s hs
    rcases im with _ | f
    · simp only [update_item, hj]
      exact finishUpdate_names _ _ _ _ hdn hbase
    · simp only [update_item, hj]
      split
      · exact hbase
      · split
        · exact hbase
        · split
          · exact finishUpdate_names _ _ _ _ hdn hbase
          · split
            · exact finishUpdate_names _ _ _ _ hdn hbase
            · exact finishUpdate_names _ _ _ _ hdn hbase

theorem update_item_catnames (db : DBState) (store : ImageStore) (id : Nat)
    (nm ct : Option String) (im : Option UploadFile)
    (h : ∀ r ∈ db.categories, r.name ≠ "") :
    ∀ r ∈ (update_item db store id nm ct im).1.categories, r.name ≠ "" := by
  rcases hj : joinFind db id with _ | ex
  · simp only [update_item, hj]
    exact h
  · have hbase := diffCategory_names db ct ex.category_name h
    have hfin : ∀ (store2 : ImageStore) (u : UpdSet),
        (finishUpdate (diffCategory db ct ex.category_name).1 store2 id u).1.categories =
          (diffCategory db ct ex.category_name).1.categories := by
      intro store2 u
      unfold finishUpdate
      split <;> rfl
    rcases im with _ | f
    · simp only [update_item, hj]
      rw [hfin]
      exact hbase
    · simp only [update_item, hj]
      split
      · exact hbase
      · split
        · exact hbase
        · split
          · rw [hfin]
            exact hbase
          · split
            · rw [hfin]
              exact hbase
            · rw [hfin]
              exact hbase

theorem insert_item_names (db : DBState) (n c i : String) (hn : n ≠ "") (hc : c ≠ "")
    (h : NamesNonempty db) : NamesNonempty (insert_item db n c i).1 := by
  obtain ⟨hi, hcat⟩ := h
  have hgi : ∀ it ∈ (getOrCreateCategory db c).1.items, it.name ≠ "" := by
    rw [getOrCreate_items]
    exact hi
  have hgc := getOrCreate_names db c hc hcat
  rcases hq : findItemByName (getOrCreateCategory db c).1 n with _ | it
  · simp only [insert_item, hq]
    constructor
    · intro it hit
      rcases List.mem_append.mp hit with hm | hm
      · exact hgi it hm
      · rw [List.mem_singleton.mp hm]
        exact hn
    · exact hgc
  · simp only [insert_item, hq]
    exact ⟨hgi, hgc⟩

theorem add_item_names (db : DBState) (store : ImageStore) (n c : String)
    (f : UploadFile) (h : NamesNonempty db) : NamesNonempty (add_item db store n c f).1 := by
  by_cases h1 : n = "" ∨ c = ""
  · simp only [add_item, if_pos h1]
    exact h
  · by_cases h2 : validImageExt f.filename = false
    · simp only [add_item, if_neg h1, if_pos h2]
      exact h
    · by_cases h3 : f.bytes.length > MAX_FILE_SIZE
      · simp only [add_item, if_neg h1, if_neg h2, if_pos h3]
        exact h
      · by_cases h4 : f.content_type ≠ "image/jpeg"
        · simp only [add_item, if_neg h1, if_neg h2, if_neg h3, if_pos h4]
          exact h
        · simp only [add_item, if_neg h1, if_neg h2, if_neg h3, if_neg h4]
          push_neg at h1
          exact insert_item_names db n c (imageFilename f.bytes) h1.1 h1.2 h

theorem delete_item_names (db : DBState) (store : ImageStore) (id : Nat)
    (h : NamesNonempty db) : NamesNonempty (delete_item db store id).1 := by
  rcases hf : db.items.find? (fun r => decide (r.id = id)) with _ | it
  · simp only [delete_item, hf]
    exact h
  · simp only [delete_item, hf]
    refine ⟨?_, h.2⟩
    intro r hr
    exact h.1 r (List.mem_of_mem_filter hr)

theorem update_item_names_all (db : DBState) (store : ImageStore) (id : Nat)
    (nm ct : Option String) (im : Option UploadFile) (h : NamesNonempty db) :
    NamesNonempty (update_item db store id nm ct im).1 :=
  ⟨update_item_names db store id nm ct im h.1,
   update_item_catnames db store id nm ct im h.2⟩

/-- C10: a PATCH that supplies the empty string for name or category
behaves exactly as if the field were omitted (Python falsiness of `""` at
lines 295 and 299); a PATCH supplying only empty-string fields and no
image on an existing item returns the "no changes" result with the state
unchanged; and none of the write operations (POST, PATCH, DELETE) can ever
put an empty item name or category name into the database. -/
theorem C10_empty_fields_ignored :
    (∀ db store id ct im,
       update_item db store id (some "") ct im = update_item db store id none ct im) ∧
    (∀ db store id nm im,
       update_item db store id nm (some "") im = update_item db store id nm none im) ∧
    (∀ db store id ex, joinFind db id = some ex →
       update_item db store id (some "") (some "") none =
         (db, store, .ok "No changes detected, item not updated")) ∧
    (∀ db store n c f, NamesNonempty db → NamesNonempty (add_item db store n c f).1) ∧
    (∀ db store id nm ct im, NamesNonempty db →
       NamesNonempty (update_item db store id nm ct im).1) ∧
    (∀ db store id, NamesNonempty db → NamesNonempty (delete_item db store id).1) := by
  refine ⟨?_, ?_, ?_, add_item_names, update_item_names_all, delete_item_names⟩
  · intro db store id ct im
    rcases hj : joinFind db id with _ | ex <;> simp [update_item, hj, diffName]
  · intro db store id nm im
    rcases hj : joinFind db id with _ | ex <;> simp [update_item, hj, diffCategory]
  · intro db store id ex hj
    exact update_item_noop db store id ex (some "") (some "") none hj
      (Or.inr (Or.inl rfl)) (Or.inr (Or.inl rfl)) (fun _ h => nomatch h)

/-- C10 witness: empty-string PATCH fields on the item `bat`, plus the
invariant instantiated on the concrete operations. -/
theorem C10_empty_fields_ignored_witness :
    (update_item dbBat storeBat 1 (some "") none none =
       update_item dbBat storeBat 1 none none none) ∧
    (update_item dbBat storeBat 1 none (some "") none =
       update_item dbBat storeBat 1 none none none) ∧
    (update_item dbBat storeBat 1 (some "") (some "") none =
       (dbBat, storeBat, .ok "No changes detected, item not updated")) ∧
    NamesNonempty (add_item dbBat storeBat "pen" "office" ⟨"p.jpg", "image/jpeg", [1]⟩).1 ∧
    NamesNonempty (update_item dbBat storeBat 1 none none none).1 ∧
    NamesNonempty (delete_item dbBat storeBat 1).1 :=
  ⟨C10_empty_fields_ignored.1 dbBat storeBat 1 none none,
   C10_empty_fields_ignored.2.1 dbBat storeBat 1 none none,
   C10_empty_fields_ignored.2.2.1 dbBat storeBat 1 ⟨1, "bat", "toys", "a.jpg"⟩ rfl,
   C10_empty_fields_ignored.2.2.2.1 dbBat storeBat "pen" "office"
     ⟨"p.jpg", "image/jpeg", [1]⟩ ⟨by decide, by decide⟩,
   C10_empty_fields_ignored.2.2.2.2.1 dbBat storeBat 1 none none none
     ⟨by decide, by decide⟩,
   C10_empty_fields_ignored.2.2.2.2.2 dbBat storeBat 1 ⟨by decide, by decide⟩⟩
